import Mathlib

/-!
# Verification of the `PDFReader` component of `lm_translator`

Shallow embedding of `src/pdf_reader.py`.  The PDF parsing backends
(PyPDF2 and pdfplumber) are external, opaque libraries: a document is
modelled as the data those backends report for each page.  Since the two
backends extract text independently (with different fidelity, per the
spec), each page carries one extraction result per backend.  Python
integers are `Int`; a fallible call is `Except`.
-/

/-- What the two parsing backends report for one page of a document.
`pypdf2Text` is what `PyPDF2`'s `page.extract_text()` returns,
`plumberText` what `pdfplumber`'s `page.extract_text()` returns (the
backends are independent and may disagree; either may report no text,
modelled as `none`).  `width`/`height` are the geometry units pdfplumber
reports; `tables` is what `page.extract_tables()` reports. -/
structure Page where
  pypdf2Text : Option String
  plumberText : Option String
  width : Int
  height : Int
  tables : List (List (List String))
deriving Repr, DecidableEq, Inhabited

/-- A PDF document, as seen through the parsing backends: the ordered
list of its pages.  Both backends see the same page count (it is the
same file). -/
structure Doc where
  pages : List Page
deriving Repr, DecidableEq, Inhabited

/-- The record built for each page by `read_pages_with_pdfplumber`
(`src/pdf_reader.py` lines 59-66): text, 1-based page number, width,
height. -/
structure PageInfo where
  text : Option String
  page_number : Nat
  width : Int
  height : Int
deriving Repr, DecidableEq

/-- The `PDFReader` object: after `__init__`, the only attribute ever
stored on the object is `pdf_path` (`src/pdf_reader.py` line 22). -/
structure PDFReader where
  pdf_path : String
deriving Repr, DecidableEq

/-- The `FileNotFoundError` message of `__init__`
(`src/pdf_reader.py` line 20). -/
def notFoundMsg (pdf_path : String) : String :=
  "PDF 파일을 찾을 수 없습니다: " ++ pdf_path

/-- `PDFReader.__init__` (`src/pdf_reader.py` lines 12-22): checks
`os.path.exists(pdf_path)` against the file system `fs` and either
raises `FileNotFoundError` or stores the path.  It touches no parsing
backend (no `Doc` is consulted). -/
def PDFReader.init (fs : String → Bool) (pdf_path : String) :
    Except String PDFReader :=
  if fs pdf_path then .ok ⟨pdf_path⟩ else .error (notFoundMsg pdf_path)

/-- `read_pages_with_pypdf2` (`src/pdf_reader.py` lines 24-43): opens
the file with PyPDF2 and appends `page.extract_text()` for
`page_num in range(total_pages)`. -/
def read_pages_with_pypdf2 (d : Doc) : List (Option String) :=
  d.pages.map (fun p => p.pypdf2Text)

/-- `read_pages_with_pdfplumber` (`src/pdf_reader.py` lines 45-70):
opens the file with pdfplumber and, for `i, page in enumerate(pdf.pages)`,
appends the record with `page_number = i + 1`. -/
def read_pages_with_pdfplumber (d : Doc) : List PageInfo :=
  d.pages.enum.map
    (fun ip => ⟨ip.2.plumberText, ip.1 + 1, ip.2.width, ip.2.height⟩)

/-- `extract_text_by_page_range` (`src/pdf_reader.py` lines 72-104):
clamps `start_page` up to 1 when `start_page < 1`; replaces `end_page`
by `total_pages` when it is `None` or greater than `total_pages`; then
iterates `for i in range(start_page - 1, end_page)` over
`pdf.pages[i].extract_text()`.  Python's `range(a, b)` is empty when
`a >= b`. -/
def extract_text_by_page_range (d : Doc) (start_page : Int)
    (end_page : Option Int) : List (Option String) :=
  let total_pages : Int := d.pages.length
  let s : Int := if start_page < 1 then 1 else start_page
  let e : Int :=
    match end_page with
    | none => total_pages
    | some ep => if ep > total_pages then total_pages else ep
  let start_idx : Nat := (s - 1).toNat
  (List.range (e - start_idx).toNat).map
    (fun k => (d.pages.getD (start_idx + k) default).plumberText)

/-- The `ValueError` message of `extract_tables_by_page`
(`src/pdf_reader.py` line 120). -/
def invalidPageMsg (page_num total_pages : Int) : String :=
  "유효하지 않은 페이지 번호: " ++ toString page_num ++
    ". 총 페이지 수: " ++ toString total_pages

/-- `extract_tables_by_page` (`src/pdf_reader.py` lines 106-127), given
the already-opened document: raises `ValueError` when
`page_num < 1 or page_num > total_pages`, otherwise returns
`pdf.pages[page_num - 1].extract_tables()`. -/
def extract_tables_by_page (d : Doc) (page_num : Int) :
    Except String (List (List (List String))) :=
  let total_pages : Int := d.pages.length
  if page_num < 1 ∨ page_num > total_pages then
    .error (invalidPageMsg page_num total_pages)
  else
    .ok (d.pages.getD (page_num - 1).toNat default).tables

/-- Errors observable from `extract_tables_by_page` as a whole: either
the backend's own failure while opening/parsing the file (propagated
unmodified), or the method's `ValueError`. -/
inductive PdfError where
  | backendError (msg : String)
  | invalidArgument (msg : String)
deriving Repr, DecidableEq

/-- `extract_tables_by_page` including the `pdfplumber.open` call
(`src/pdf_reader.py` lines 116-127): the file at `r.pdf_path` is opened
first (`openPdf`, which may itself fail), and only then is `page_num`
validated against the page count of the document just opened. -/
def extract_tables_full (openPdf : String → Except String Doc)
    (r : PDFReader) (page_num : Int) :
    Except PdfError (List (List (List String))) :=
  match openPdf r.pdf_path with
  | .error m => .error (.backendError m)
  | .ok pdf =>
    match extract_tables_by_page pdf page_num with
    | .error m => .error (.invalidArgument m)
    | .ok t => .ok t

/-- The start-page clamping of `extract_text_by_page_range`
(`src/pdf_reader.py` lines 89-90), named for the statements below. -/
def clampStart (start_page : Int) : Int :=
  if start_page < 1 then 1 else start_page

/-- The end-page clamping of `extract_text_by_page_range`
(`src/pdf_reader.py` lines 92-93), named for the statements below. -/
def clampEnd (total_pages : Int) (end_page : Option Int) : Int :=
  match end_page with
  | none => total_pages
  | some ep => if ep > total_pages then total_pages else ep

/-- Python method-call semantics of `read_pages_with_pypdf2`: the call
takes `self`, reads `self.pdf_path`, and returns the (possibly updated)
`self` next to the result.  The method body has no assignment to
`self`. -/
def runReadPypdf2 (openPdf : String → Doc) (r : PDFReader) :
    PDFReader × List (Option String) :=
  (r, read_pages_with_pypdf2 (openPdf r.pdf_path))

/-- Python method-call semantics of `read_pages_with_pdfplumber`
(no assignment to `self` in the body). -/
def runReadPdfplumber (openPdf : String → Doc) (r : PDFReader) :
    PDFReader × List PageInfo :=
  (r, read_pages_with_pdfplumber (openPdf r.pdf_path))

/-- Python method-call semantics of `extract_text_by_page_range`
(no assignment to `self` in the body). -/
def runExtractRange (openPdf : String → Doc) (r : PDFReader)
    (start_page : Int) (end_page : Option Int) :
    PDFReader × List (Option String) :=
  (r, extract_text_by_page_range (openPdf r.pdf_path) start_page end_page)

/-- Python method-call semantics of `extract_tables_by_page`, raising
included (no assignment to `self` on any path of the body). -/
def runExtractTables (openPdf : String → Except String Doc)
    (r : PDFReader) (page_num : Int) :
    PDFReader × Except PdfError (List (List (List String))) :=
  (r, extract_tables_full openPdf r page_num)

/-! ## Concrete documents used as witnesses and counterexamples -/

/-- A page on which neither backend finds text and no tables exist. -/
def pg0 : Page := ⟨none, none, 0, 0, []⟩

/-- A page on which the two text-extraction backends disagree
(PyPDF2 reports "A", pdfplumber reports "B"). -/
def pgAB : Page := ⟨some "A", some "B", 0, 0, []⟩

/-- A page on which both backends report the same text "C". -/
def pgC : Page := ⟨some "C", some "C", 0, 0, []⟩

/-- A 3-page document of empty pages. -/
def doc3 : Doc := ⟨[pg0, pg0, pg0]⟩

/-- A 10-page document on which the two text backends disagree. -/
def doc10 : Doc := ⟨List.replicate 10 pgAB⟩

/-- A 10-page document on which the two text backends agree. -/
def docC : Doc := ⟨List.replicate 10 pgC⟩

/-! ## Helper lemmas -/

lemma clampStart_ge_one (s : Int) : 1 ≤ clampStart s := by
  unfold clampStart; split <;> omega

lemma clampEnd_le_total (t : Int) (e : Option Int) :
    clampEnd t e ≤ t := by
  cases e with
  | none => simp only [clampEnd]; omega
  | some ep => simp only [clampEnd]; split <;> omega

/-- Normal form of `extract_text_by_page_range`: the clamped bounds
determine a list of `(clampEnd - clampStart + 1).toNat` page indices
starting at `clampStart - 1`. -/
lemma extract_range_eq_range (d : Doc) (s : Int) (e : Option Int) :
    extract_text_by_page_range d s e
      = (List.range
            (clampEnd (d.pages.length : Int) e - clampStart s + 1).toNat).map
          (fun k =>
            (d.pages.getD ((clampStart s - 1).toNat + k) default).plumberText) := by
  have h1 : (1 : Int) ≤ clampStart s := clampStart_ge_one s
  have h2 : ((clampStart s - 1).toNat : Int) = clampStart s - 1 :=
    Int.toNat_of_nonneg (by omega)
  simp only [extract_text_by_page_range, clampStart, clampEnd] at *
  congr 2
  omega

lemma extract_range_length (d : Doc) (s : Int) (e : Option Int) :
    (extract_text_by_page_range d s e).length
      = (clampEnd (d.pages.length : Int) e - clampStart s + 1).toNat := by
  rw [extract_range_eq_range]
  simp

lemma range_map_getD {α β : Type} [Inhabited α] (l : List α) (f : α → β) :
    (List.range l.length).map (fun k => f (l.getD k default)) = l.map f := by
  apply List.ext_getElem
  · simp
  · intro n h1 h2
    simp only [List.getElem_map, List.getElem_range]
    rw [List.getD_eq_getElem l default (by simpa using h2)]

/-! ## Claim theorems -/

/-- C1 (counterexample): on a 3-page document, the call
`extract_text_by_page_range(5, None)` clamps to `start_page = 5`,
`end_page = 3`, yet the returned list's length (0) is not
`end_page - start_page + 1 = -1`, so the claimed length formula fails
as stated for all integer inputs. -/
theorem extract_range_length_formula_false :
    doc3.pages.length = 3 ∧
    ¬ (((extract_text_by_page_range doc3 5 none).length : Int)
        = clampEnd (doc3.pages.length : Int) none - clampStart 5 + 1) := by
  constructor
  · rfl
  · decide

/-- C1 (amended): `extract_text_by_page_range(start_page, end_page)`
behaves as if `start_page = 1` whenever `start_page < 1`, behaves as if
`end_page = totalPages` whenever `end_page` is unset (`None`) or
`end_page > totalPages`, and the returned list's length equals
`end_page - start_page + 1` after this clamping whenever that quantity
is nonnegative, and is 0 otherwise (length = max 0 (end - start + 1)). -/
theorem extract_range_clamping (d : Doc) (s : Int) (e : Option Int) :
    (s < 1 → extract_text_by_page_range d s e
        = extract_text_by_page_range d 1 e)
  ∧ (e = none → extract_text_by_page_range d s e
        = extract_text_by_page_range d s (some (d.pages.length : Int)))
  ∧ (∀ ep : Int, e = some ep → ep > (d.pages.length : Int) →
        extract_text_by_page_range d s e
          = extract_text_by_page_range d s (some (d.pages.length : Int)))
  ∧ (extract_text_by_page_range d s e).length
        = (clampEnd (d.pages.length : Int) e - clampStart s + 1).toNat := by
  refine ⟨?_, ?_, ?_, extract_range_length d s e⟩
  · intro hs
    rw [extract_range_eq_range, extract_range_eq_range]
    have : clampStart s = clampStart 1 := by
      unfold clampStart; split <;> split <;> omega
    rw [this]
  · intro he
    subst he
    rw [extract_range_eq_range, extract_range_eq_range]
    have : clampEnd (d.pages.length : Int) none
        = clampEnd (d.pages.length : Int) (some (d.pages.length : Int)) := by
      unfold clampEnd; dsimp only; split <;> omega
    rw [this]
  · intro ep he hep
    subst he
    rw [extract_range_eq_range, extract_range_eq_range]
    have : clampEnd (d.pages.length : Int) (some ep)
        = clampEnd (d.pages.length : Int) (some (d.pages.length : Int)) := by
      unfold clampEnd; dsimp only; split <;> split <;> omega
    rw [this]

/-- C1 (witness): for the 3-page document and the call with
`start_page = 0 < 1`, the amended theorem applies and the call agrees
with `start_page = 1`. -/
theorem extract_range_clamping_witness :
    (0 : Int) < 1 ∧
    extract_text_by_page_range doc3 0 (some 100)
      = extract_text_by_page_range doc3 1 (some 100) :=
  ⟨by decide, (extract_range_clamping doc3 0 (some 100)).1 (by decide)⟩

/-- C9: whenever the clamped bounds satisfy `start_page > end_page` —
in particular whenever `start_page` exceeds the document's total page
count — `extract_text_by_page_range` returns the empty list. -/
theorem extract_range_empty_when_degenerate (d : Doc) (s : Int)
    (e : Option Int) :
    (clampEnd (d.pages.length : Int) e < clampStart s →
        extract_text_by_page_range d s e = [])
  ∧ ((d.pages.length : Int) < s →
        extract_text_by_page_range d s e = []) := by
  have hlen := extract_range_length d s e
  constructor
  · intro h
    apply List.eq_nil_of_length_eq_zero
    omega
  · intro h
    apply List.eq_nil_of_length_eq_zero
    have h1 : clampStart s = s := by unfold clampStart; split <;> omega
    have h2 : clampEnd (d.pages.length : Int) e ≤ (d.pages.length : Int) :=
      clampEnd_le_total _ _
    omega

/-- C9 (witness): on the 3-page document, `start_page = 5` exceeds both
the clamped end (3) and the page count, and the call returns `[]`. -/
theorem extract_range_empty_witness :
    clampEnd (doc3.pages.length : Int) none < clampStart 5 ∧
    extract_text_by_page_range doc3 5 none = [] :=
  ⟨by decide, (extract_range_empty_when_degenerate doc3 5 none).1 (by decide)⟩

/-- C2: `extract_tables_by_page(page_num)` raises `ValueError` exactly
when `page_num < 1` or `page_num > totalPages` (hence for 0, for
`totalPages + 1`, and for every negative page number), with a message
that contains both the offending page number and the total page count;
for every `page_num` in `[1, totalPages]` it succeeds and returns that
page's table list. -/
theorem extract_tables_validation (d : Doc) (pn : Int) :
    (extract_tables_by_page d pn
        = .error (invalidPageMsg pn (d.pages.length : Int))
      ↔ pn < 1 ∨ pn > (d.pages.length : Int))
  ∧ (1 ≤ pn → pn ≤ (d.pages.length : Int) →
      ∀ h : (pn - 1).toNat < d.pages.length,
        extract_tables_by_page d pn
          = .ok (d.pages.get ⟨(pn - 1).toNat, h⟩).tables)
  ∧ (∃ a b : String,
      invalidPageMsg pn (d.pages.length : Int)
        = a ++ toString pn ++ b ++ toString (d.pages.length : Int)) := by
  refine ⟨?_, ?_, ?_⟩
  · simp only [extract_tables_by_page]
    split
    case isTrue h => simp [h]
    case isFalse h => simp [h]
  · intro h1 h2 h
    simp only [extract_tables_by_page]
    rw [if_neg (by omega)]
    rw [List.getD_eq_getElem d.pages default h]
    rfl
  · exact ⟨"유효하지 않은 페이지 번호: ", ". 총 페이지 수: ", rfl⟩

/-- C2 (witness): on the 3-page document, page 2 is in range and the
call returns the tables of the second page. -/
theorem extract_tables_validation_witness :
    (1 : Int) ≤ 2 ∧ (2 : Int) ≤ (doc3.pages.length : Int) ∧
    extract_tables_by_page doc3 2
      = .ok (doc3.pages.get ⟨((2 : Int) - 1).toNat, by decide⟩).tables :=
  ⟨by decide, by decide,
    (extract_tables_validation doc3 2).2.1 (by decide) (by decide) (by decide)⟩

/-- C4: `PDFReader.__init__(path)` succeeds iff a file exists at the
path at construction time; on success it stores the path; when no file
exists it raises `FileNotFoundError`.  No parsing is attempted at
construction: in the embedding, `PDFReader.init` consults only the file
system `fs`, never a parsed `Doc`. -/
theorem construct_iff_file_exists (fs : String → Bool) (p : String) :
    ((∃ r, PDFReader.init fs p = .ok r) ↔ fs p = true)
  ∧ (∀ r, PDFReader.init fs p = .ok r → r.pdf_path = p)
  ∧ (fs p = false → PDFReader.init fs p = .error (notFoundMsg p)) := by
  by_cases h : fs p = true
  · refine ⟨by simp [PDFReader.init, h], ?_, by simp [h]⟩
    intro r hr
    simp only [PDFReader.init, h, if_true, Except.ok.injEq] at hr
    rw [← hr]
  · have h' : fs p = false := by simpa using h
    refine ⟨by simp [PDFReader.init, h'], ?_, ?_⟩
    · intro r hr
      simp [PDFReader.init, h'] at hr
    · intro _
      simp [PDFReader.init, h']

/-- C4 (witness): on a file system with no files, construction of
`PDFReader "a.pdf"` fails with the not-found error. -/
theorem construct_iff_file_exists_witness :
    (fun _ : String => false) "a.pdf" = false ∧
    PDFReader.init (fun _ => false) "a.pdf" = .error (notFoundMsg "a.pdf") :=
  ⟨rfl, (construct_iff_file_exists (fun _ => false) "a.pdf").2.2 rfl⟩

/-- C5: `read_pages_with_pypdf2()` returns one entry per page, in
document order: its length equals the page count, and its i-th entry is
exactly the i-th page's PyPDF2 text (a page with no extractable text
yields a `some none` entry — present, not omitted). -/
theorem read_simple_per_page (d : Doc) :
    (read_pages_with_pypdf2 d).length = d.pages.length
  ∧ ∀ i : Nat, (read_pages_with_pypdf2 d)[i]?
      = (d.pages[i]?).map (fun p => p.pypdf2Text) := by
  constructor
  · simp [read_pages_with_pypdf2]
  · intro i
    simp [read_pages_with_pypdf2, List.getElem?_map]

/-- C6: `read_pages_with_pdfplumber()` returns one record per page and
its `page_number` fields are exactly the strictly increasing sequence
`1, 2, …, totalPages` in document order. -/
theorem read_detailed_page_numbers (d : Doc) :
    (read_pages_with_pdfplumber d).length = d.pages.length
  ∧ (read_pages_with_pdfplumber d).map (fun pi => pi.page_number)
      = List.range' 1 d.pages.length := by
  constructor
  · simp [read_pages_with_pdfplumber]
  · apply List.ext_getElem
    · simp [read_pages_with_pdfplumber]
    · intro n h1 h2
      simp only [read_pages_with_pdfplumber, List.getElem_map,
        List.getElem_enum, List.getElem_range']
      omega

/-- C3 (counterexample): `extract_text_by_page_range` uses the
pdfplumber backend while `read_pages_with_pypdf2` uses the PyPDF2
backend; on a 10-page document where the two backends extract different
text (PyPDF2 reports "A", pdfplumber reports "B" on each page),
`extract_text_by_page_range(0, 100)` is not equal to
`read_pages_with_pypdf2()`, so the claimed identity fails as stated for
every 10-page document. -/
theorem range_vs_simple_identity_false :
    doc10.pages.length = 10 ∧
    extract_text_by_page_range doc10 0 (some 100)
      ≠ read_pages_with_pypdf2 doc10 := by
  constructor
  · rfl
  · decide

/-- C3 (amended): for every 10-page document on which the two text
backends agree page by page, `extract_text_by_page_range(0, 100)`
returns the text of all 10 pages, identical in content and order to
`read_pages_with_pypdf2()`. -/
theorem range_vs_simple_identity (d : Doc) (h10 : d.pages.length = 10)
    (hagree : ∀ p ∈ d.pages, p.plumberText = p.pypdf2Text) :
    extract_text_by_page_range d 0 (some 100) = read_pages_with_pypdf2 d
  ∧ (extract_text_by_page_range d 0 (some 100)).length = 10 := by
  have hnorm := extract_range_eq_range d 0 (some 100)
  rw [h10] at hnorm
  have hcs : clampStart 0 = 1 := by decide
  have hce : clampEnd ((10 : Nat) : Int) (some 100) = 10 := by decide
  rw [hcs, hce] at hnorm
  have hc1 : ((10 : Int) - 1 + 1).toNat = 10 := by decide
  have hc2 : (((1 : Int) - 1).toNat) = 0 := by decide
  rw [hc1, hc2] at hnorm
  simp only [Nat.zero_add] at hnorm
  have hmain : extract_text_by_page_range d 0 (some 100)
      = read_pages_with_pypdf2 d := by
    rw [hnorm, read_pages_with_pypdf2, ← h10]
    exact (range_map_getD d.pages (fun p => p.plumberText)).trans
      (List.map_congr_left hagree)
  refine ⟨hmain, ?_⟩
  rw [hmain]
  simp [read_pages_with_pypdf2, h10]

/-- C3 (witness): the concrete 10-page document `docC`, on which both
backends report "C" for every page, satisfies the amended theorem. -/
theorem range_vs_simple_identity_witness :
    docC.pages.length = 10 ∧
    (∀ p ∈ docC.pages, p.plumberText = p.pypdf2Text) ∧
    extract_text_by_page_range docC 0 (some 100)
      = read_pages_with_pypdf2 docC :=
  ⟨by decide, by decide,
    (range_vs_simple_identity docC (by decide) (by decide)).1⟩

/-- C7: every `page_number` reported by `read_pages_with_pdfplumber`,
passed to `extract_tables_by_page` on the same document, succeeds —
`ValueError` is never raised on the round trip. -/
theorem detailed_page_numbers_round_trip (d : Doc) (pi : PageInfo)
    (h : pi ∈ read_pages_with_pdfplumber d) :
    ∃ t, extract_tables_by_page d (pi.page_number : Int) = .ok t := by
  rw [List.mem_iff_getElem] at h
  obtain ⟨n, hn, hEq⟩ := h
  have hlen : n < d.pages.length := by
    simpa [read_pages_with_pdfplumber] using hn
  have hpn : pi.page_number = n + 1 := by
    rw [← hEq]
    simp [read_pages_with_pdfplumber, List.getElem_map, List.getElem_enum]
  refine ⟨(d.pages.getD ((pi.page_number : Int) - 1).toNat default).tables, ?_⟩
  simp only [extract_tables_by_page]
  rw [if_neg (by rw [hpn]; push_cast; omega)]

/-- C7 (witness): on the 3-page document, the second reported record
has `page_number = 2` and table extraction at 2 succeeds. -/
theorem detailed_page_numbers_round_trip_witness :
    (⟨none, 2, 0, 0⟩ : PageInfo) ∈ read_pages_with_pdfplumber doc3 ∧
    ∃ t, extract_tables_by_page doc3
        (((⟨none, 2, 0, 0⟩ : PageInfo).page_number : Nat) : Int) = .ok t :=
  ⟨by decide, detailed_page_numbers_round_trip doc3 ⟨none, 2, 0, 0⟩ (by decide)⟩

/-- C8: every operation returns the object state unchanged — the stored
`pdf_path` after any of the four calls (including a raising
`extract_tables_by_page`) is the state before — and a `PDFReader`
carries no state besides `pdf_path`: two readers with the same path are
equal. -/
theorem operations_preserve_state (openPdf : String → Doc)
    (openPdfE : String → Except String Doc) (r : PDFReader)
    (start_page : Int) (end_page : Option Int) (page_num : Int) :
    (runReadPypdf2 openPdf r).1 = r
  ∧ (runReadPdfplumber openPdf r).1 = r
  ∧ (runExtractRange openPdf r start_page end_page).1 = r
  ∧ (runExtractTables openPdfE r page_num).1 = r
  ∧ (∀ r' : PDFReader, r'.pdf_path = r.pdf_path → r' = r) := by
  refine ⟨rfl, rfl, rfl, rfl, ?_⟩
  intro r' h
  cases r'
  cases r
  simpa using h

/-- C8 (witness): applied to the concrete reader at path "x" and
trivial backends. -/
theorem operations_preserve_state_witness :
    (runReadPypdf2 (fun _ => doc3) ⟨"x"⟩).1 = (⟨"x"⟩ : PDFReader) ∧
    (PDFReader.mk "x").pdf_path = (PDFReader.mk "x").pdf_path ∧
    (⟨"x"⟩ : PDFReader) = ⟨"x"⟩ :=
  ⟨(operations_preserve_state (fun _ => doc3) (fun _ => .ok doc3) ⟨"x"⟩ 1
      none 1).1,
    rfl,
    (operations_preserve_state (fun _ => doc3) (fun _ => .ok doc3) ⟨"x"⟩ 1
      none 1).2.2.2.2 ⟨"x"⟩ rfl⟩

/-- C10: `extract_tables_by_page` opens the file before validating
`page_num`: when opening fails, the backend error propagates for every
`page_num` (no `ValueError` is ever produced); when opening succeeds,
the bounds check and the result are those of the document read at call
time. -/
theorem tables_open_before_validate (openPdf : String → Except String Doc)
    (r : PDFReader) (pn : Int) :
    (∀ m, openPdf r.pdf_path = .error m →
        extract_tables_full openPdf r pn = .error (.backendError m))
  ∧ (∀ pdf, openPdf r.pdf_path = .ok pdf →
      ((pn < 1 ∨ pn > (pdf.pages.length : Int)) →
          extract_tables_full openPdf r pn
            = .error (.invalidArgument
                (invalidPageMsg pn (pdf.pages.length : Int))))
      ∧ (∀ t, extract_tables_by_page pdf pn = .ok t →
          extract_tables_full openPdf r pn = .ok t)) := by
  constructor
  · intro m hm
    simp [extract_tables_full, hm]
  · intro pdf hpdf
    constructor
    · intro hcond
      have herr : extract_tables_by_page pdf pn
          = .error (invalidPageMsg pn (pdf.pages.length : Int)) := by
        simp only [extract_tables_by_page]
        rw [if_pos hcond]
      simp [extract_tables_full, hpdf, herr]
    · intro t ht
      simp [extract_tables_full, hpdf, ht]

/-- C10 (witness): with a backend that fails to open the file, the
failure propagates as a backend error, not as `ValueError`, even for
the out-of-range page number 0. -/
theorem tables_open_before_validate_witness :
    (fun _ : String => (Except.error "corrupt file" : Except String Doc))
        (PDFReader.mk "x").pdf_path = .error "corrupt file" ∧
    extract_tables_full (fun _ => .error "corrupt file") ⟨"x"⟩ 0
      = .error (.backendError "corrupt file") :=
  ⟨rfl,
    (tables_open_before_validate (fun _ => .error "corrupt file") ⟨"x"⟩ 0).1
      "corrupt file" rfl⟩
